import Mathlib

/-!
# Verification of the NFe reconciliation engine

Shallow embedding of `src/script_validacao_nfe.py` (the reconciliation
pipeline: grouping, confrontation, divergence grouping, summary) together
with theorems settling the specification claims.

Conventions of the embedding:
* Python `Decimal` currency values are modelled as `Rat` (exact decimal
  arithmetic; every value produced by the pipeline is a decimal rational).
* Python `date` values are modelled as `Int` day numbers; the Python
  subtraction `(d2 - d1).days` becomes integer subtraction.
* A Python `set` of invoice-number strings is modelled as a `List String`
  (the code only takes membership, size, and a sorted copy of the set,
  none of which depend on iteration order; theorems that need the
  set-property add a `Nodup` hypothesis).
* The free-text `motivo` messages keep only their constant identifying
  text; the numeric suffixes interpolated by the source's f-strings are
  elided (no claim mentions them).
-/

namespace NFeValidacao

/-- `TransacaoOriginal` (script_validacao_nfe.py lines 70-91): one
spreadsheet transaction row. -/
structure TransacaoOriginal where
  numeros_nfe : List String
  data_abastecimento : Int
  cnpj_posto : String
  cnpj_empresa : String
  valor_boleto : Rat
  postergado : String
  linha : Nat
  texto_original : String
  eh_cancelamento : Bool
  eh_estorno : Bool
deriving DecidableEq, Repr

/-- `TransacaoOriginal.eh_agrupamento` (lines 88-91): true when the row
references more than one invoice number. -/
def TransacaoOriginal.eh_agrupamento (t : TransacaoOriginal) : Bool :=
  t.numeros_nfe.length > 1

/-- `NFe` (lines 56-68): an invoice extracted from XML. -/
structure NFe where
  numero : String
  data_emissao : Int
  cnpj_emitente : String
  cnpj_destinatario : String
  valor : Rat
  xml_path : String
deriving DecidableEq, Repr

/-- `GrupoNFe` (lines 93-123): the per-invoice-number group handed to the
confrontation engine. -/
structure GrupoNFe where
  numero_nfe : String
  data_abastecimento : Int
  cnpj_posto : String
  cnpj_empresa : String
  valor_planilha : Rat
  postergado : String
  transacoes_individuais : List TransacaoOriginal
  transacoes_agrupadas : List TransacaoOriginal
  linhas : List Nat
deriving DecidableEq, Repr

/-- `GrupoNFe.tem_individual` (lines 106-108). -/
def GrupoNFe.tem_individual (g : GrupoNFe) : Bool :=
  g.transacoes_individuais.length > 0

/-- `GrupoNFe.tem_agrupado` (lines 110-112). -/
def GrupoNFe.tem_agrupado (g : GrupoNFe) : Bool :=
  g.transacoes_agrupadas.length > 0

/-- `GrupoNFe.tipo_origem` (lines 114-123). -/
def GrupoNFe.tipo_origem (g : GrupoNFe) : String :=
  if g.tem_individual && g.tem_agrupado then "AMBOS"
  else if g.tem_individual then "INDIVIDUAL"
  else if g.tem_agrupado then "AGRUPADO"
  else "NENHUM"

/-- `Config` (lines 36-50): closing date, grace period, tolerance. -/
structure Config where
  CNPJ_EMPRESA : String
  DATA_FECHAMENTO : Int
  PERIODO_MAXIMO_DIAS : Int
  TOLERANCIA_VALOR : Rat
deriving Repr

/-- A transaction takes part in grouping unless it is a cancellation or a
reversal (lines 443-445). -/
def contribui (t : TransacaoOriginal) : Bool :=
  !t.eh_cancelamento && !t.eh_estorno

/-- The individual-mode contributors of one invoice number.  The
`defaultdict` built at lines 436-451 appends each contributing transaction
to `indice[numero]['individuais']` in list order, so per key its content is
exactly this filter of the transaction list. -/
def individuaisDe (ts : List TransacaoOriginal) (numero : String) :
    List TransacaoOriginal :=
  ts.filter (fun t => contribui t && !t.eh_agrupamento &&
    t.numeros_nfe.contains numero)

/-- The combined-mode contributors of one invoice number
(`indice[numero]['agrupadas']`, lines 436-451). -/
def agrupadasDe (ts : List TransacaoOriginal) (numero : String) :
    List TransacaoOriginal :=
  ts.filter (fun t => contribui t && t.eh_agrupamento &&
    t.numeros_nfe.contains numero)

/-- `sum(t.valor_boleto for t in l)`. -/
def somaValores (l : List TransacaoOriginal) : Rat :=
  (l.map (·.valor_boleto)).sum

/-- Python's `sorted` on the reference set (line 470): lexicographic
string sort (any sorting algorithm yields the same list on the
duplicate-free reference set; insertion sort keeps the embedding
kernel-computable). -/
def numerosNaOrdem (l : List String) : List String :=
  l.insertionSort (fun a b => a ≤ b)

/-- The body of the per-key loop of `criar_grupos_nfe`
(script_validacao_nfe.py lines 456-500): build the group of one invoice
number, or `none` when the number has no contributor (the `else: continue`
at line 482). -/
def grupoDe (ts : List TransacaoOriginal) (numero : String) :
    Option GrupoNFe :=
  match individuaisDe ts numero, agrupadasDe ts numero with
  | [], [] => none
  | [], a :: rest =>
    let agrupadas := a :: rest
    let valor_planilha :=
      if (numerosNaOrdem a.numeros_nfe).head? = some numero then
        somaValores agrupadas
      else 0
    some { numero_nfe := numero
           data_abastecimento := a.data_abastecimento
           cnpj_posto := a.cnpj_posto
           cnpj_empresa := a.cnpj_empresa
           valor_planilha := valor_planilha
           postergado := a.postergado
           transacoes_individuais := []
           transacoes_agrupadas := agrupadas
           linhas := agrupadas.map (·.linha) }
  | i :: rest, agrupadas =>
    let individuais := i :: rest
    some { numero_nfe := numero
           data_abastecimento := i.data_abastecimento
           cnpj_posto := i.cnpj_posto
           cnpj_empresa := i.cnpj_empresa
           valor_planilha := somaValores individuais
           postergado := i.postergado
           transacoes_individuais := individuais
           transacoes_agrupadas := agrupadas
           linhas := individuais.map (·.linha) }

/-- Keep the first occurrence of each element, in first-encounter order
(the key-insertion order of a Python dict built by appending). -/
def dedupFirst : List Nat → List Nat
  | [] => []
  | a :: l => a :: dedupFirst (l.filter (fun b => b ≠ a))
termination_by l => l.length
decreasing_by
  simp only [List.length_cons]
  exact Nat.lt_succ_of_le (List.length_filter_le _ _)

/-- Same first-occurrence deduplication for strings (invoice numbers). -/
def dedupFirstStr : List String → List String
  | [] => []
  | a :: l => a :: dedupFirstStr (l.filter (fun b => b ≠ a))
termination_by l => l.length
decreasing_by
  simp only [List.length_cons]
  exact Nat.lt_succ_of_le (List.length_filter_le _ _)

/-- The invoice numbers that get a `defaultdict` key at lines 442-451, in
first-encounter order. -/
def chavesNFe (ts : List TransacaoOriginal) : List String :=
  dedupFirstStr (((ts.filter contribui).map (·.numeros_nfe)).flatten)

/-- `criar_grupos_nfe` (lines 423-520): the invoice-number → group map,
as an association list in key-insertion order. -/
def criar_grupos_nfe (ts : List TransacaoOriginal) :
    List (String × GrupoNFe) :=
  (chavesNFe ts).filterMap (fun n => (grupoDe ts n).map (fun g => (n, g)))

/-- `grupos.values()`: the groups in key order. -/
def valoresGrupos (ts : List TransacaoOriginal) : List GrupoNFe :=
  (criar_grupos_nfe ts).map (·.2)

/-- The five classification tags of `Resultado.tipo` (line 128).  The
source stores them as strings; the result dict of
`processar_confrontamento` has exactly these five keys. -/
inductive TipoResultado where
  | IDENTICA
  | DIVERGENTE
  | DIVERGENTE_AGRUPADA
  | NAO_ENCONTRADA
  | DESCONSIDERADA
deriving DecidableEq, Repr

/-- `Resultado` (lines 125-134).  The late-bound
`grupo_divergencia_id` field is modelled separately by
`grupoDivergenciaId`. -/
structure Resultado where
  tipo : TipoResultado
  grupo : GrupoNFe
  nfe : Option NFe
  diferenca : Rat
  dias_postergados : Int
  motivo : String
deriving DecidableEq, Repr

/-- `calcular_dias_postergados` (lines 526-529):
`max(0, (data_fechamento - data_abastecimento).days)`. -/
def calcular_dias_postergados (data_abastecimento data_fechamento : Int) :
    Int :=
  max 0 (data_fechamento - data_abastecimento)

/-- The invoice index `{nfe.numero: nfe for nfe in nfes}` (line 608):
last-seen wins on duplicate numbers. -/
def nfesIndex (nfes : List NFe) (numero : String) : Option NFe :=
  nfes.reverse.find? (fun nfe => nfe.numero = numero)

/-- `confrontar_grupo` (lines 531-595): classify one group against the
invoice index. -/
def confrontar_grupo (grupo : GrupoNFe) (nfes_index : String → Option NFe)
    (config : Config) : Resultado :=
  match nfes_index grupo.numero_nfe with
  | none =>
    let dias := calcular_dias_postergados grupo.data_abastecimento
      config.DATA_FECHAMENTO
    { tipo := .NAO_ENCONTRADA
      grupo := grupo
      nfe := none
      diferenca := grupo.valor_planilha
      dias_postergados := dias
      motivo := "XML não encontrado" }
  | some nfe =>
    let dias := calcular_dias_postergados grupo.data_abastecimento
      config.DATA_FECHAMENTO
    if dias > config.PERIODO_MAXIMO_DIAS then
      { tipo := .DESCONSIDERADA
        grupo := grupo
        nfe := some nfe
        diferenca := |grupo.valor_planilha - nfe.valor|
        dias_postergados := dias
        motivo := "Postergada" }
    else
      let diferenca := |grupo.valor_planilha - nfe.valor|
      if diferenca ≤ config.TOLERANCIA_VALOR then
        { tipo := .IDENTICA
          grupo := grupo
          nfe := some nfe
          diferenca := diferenca
          dias_postergados := dias
          motivo := "Match exato" }
      else if grupo.tipo_origem = "AGRUPADO" then
        { tipo := .DIVERGENTE_AGRUPADA
          grupo := grupo
          nfe := some nfe
          diferenca := diferenca
          dias_postergados := dias
          motivo := "Divergência (só agrupado)" }
      else
        { tipo := .DIVERGENTE
          grupo := grupo
          nfe := some nfe
          diferenca := diferenca
          dias_postergados := dias
          motivo := "Divergência" }

/-- `processar_confrontamento` (lines 597-630): classify every group and
collect the results by tag.  The source appends each result to
`resultados[resultado.tipo]` while iterating `grupos.values()`, so each
bucket is the tag-filter of the per-group result list, in group order. -/
def processar_confrontamento (grupos : List GrupoNFe) (nfes : List NFe)
    (config : Config) : TipoResultado → List Resultado :=
  fun t =>
    (grupos.map (fun g => confrontar_grupo g (nfesIndex nfes) config)).filter
      (fun r => r.tipo = t)

/-- The grouping key used by `detectar_grupos_divergentes_agrupadas`
(lines 647-653): the source row of the result's first combined
contributor; `none` when the group has no combined contributor (such a
result is skipped by the `if resultado.grupo.transacoes_agrupadas:`
guard and never keyed). -/
def chaveDivergencia (r : Resultado) : Option Nat :=
  r.grupo.transacoes_agrupadas.head?.map (·.linha)

/-- The distinct divergence keys in first-encounter order — the insertion
order of the `defaultdict` at lines 645-653, which is the order the ids
are handed out in (lines 656-670, both branches assign the running
`grupo_id` and increment it). -/
def chavesDivergencia (rs : List Resultado) : List Nat :=
  dedupFirst (rs.filterMap chaveDivergencia)

/-- The divergence-group id `detectar_grupos_divergentes_agrupadas`
assigns to a result of the input list: 1 + the position of its key in
first-encounter order (lines 636-680). -/
def grupoDivergenciaId (rs : List Resultado) (r : Resultado) : Option Nat :=
  (chaveDivergencia r).map (fun k => (chavesDivergencia rs).indexOf k + 1)

/-- The `grupos_numerados` dict returned by
`detectar_grupos_divergentes_agrupadas` (lines 656-680), as an
association list id → results sharing that key. -/
def detectar_grupos_divergentes_agrupadas (rs : List Resultado) :
    List (Nat × List Resultado) :=
  (chavesDivergencia rs).enum.map (fun p =>
    (p.1 + 1, rs.filter (fun r => chaveDivergencia r = some p.2)))

/-- `calcular_cancelamentos_estornos` (lines 686-699). -/
def calcular_cancelamentos_estornos (ts : List TransacaoOriginal) :
    Rat × Rat :=
  let cancelamento := ((ts.filter (·.eh_cancelamento)).map (·.valor_boleto)).sum
  let estorno := ((ts.filter (·.eh_estorno)).map (·.valor_boleto)).sum
  (cancelamento, if estorno > 0 then -estorno else estorno)

/-- `Resumo` (lines 136-149). -/
structure Resumo where
  valor_do_boleto : Rat
  identicas : Rat
  agrupadas : Rat
  divergentes : Rat
  desconsideradas : Rat
  nao_encontradas : Rat
  cancelamento : Rat
  estornos : Rat
  total : Rat
  valor_a_pagar : Rat
  diferenca_validacao : Rat
deriving DecidableEq, Repr

/-- `gerar_resumo` (lines 705-743). -/
def gerar_resumo (resultados : TipoResultado → List Resultado)
    (valor_total_boleto cancelamento estorno : Rat) : Resumo :=
  let identicas :=
    ((resultados .IDENTICA).map (·.grupo.valor_planilha)).sum
  let divergentes_agrupadas :=
    ((resultados .DIVERGENTE_AGRUPADA).map (·.grupo.valor_planilha)).sum
  let divergentes :=
    ((resultados .DIVERGENTE).map (·.grupo.valor_planilha)).sum
  let desconsideradas :=
    (((resultados .DESCONSIDERADA).filterMap (·.nfe)).map (·.valor)).sum
  let nao_encontradas :=
    ((resultados .NAO_ENCONTRADA).map (·.grupo.valor_planilha)).sum
  let total := identicas + divergentes_agrupadas + divergentes +
    desconsideradas - nao_encontradas
  let valor_a_pagar := total - desconsideradas
  let diferenca_validacao := |valor_a_pagar - valor_total_boleto|
  { valor_do_boleto := valor_total_boleto
    identicas := identicas
    agrupadas := divergentes_agrupadas
    divergentes := divergentes
    desconsideradas := desconsideradas
    nao_encontradas := nao_encontradas
    cancelamento := cancelamento
    estornos := estorno
    total := total
    valor_a_pagar := valor_a_pagar
    diferenca_validacao := diferenca_validacao }

/-- The declared total accumulated by `carregar_transacoes_da_planilha`
(lines 368-417): `valor_total_boleto += valor_convertido` runs for every
row that is ingested into the transaction list (cancellation and reversal
rows included), so over the ingested list it is the plain sum of the
billed values. -/
def valorTotalBoleto (ts : List TransacaoOriginal) : Rat :=
  (ts.map (·.valor_boleto)).sum

/-! ## The currency parser `converter_valor` (lines 168-195) -/

/-- The possible run-time types of the cell value handed to
`converter_valor`: `None`, a `Decimal`, a native `int`/`float` (carried
as the exact decimal rational that `Decimal(str(valor))` denotes), or
text. -/
inductive ValorCelula where
  | nenhum
  | decimalPuro (q : Rat)
  | numero (q : Rat)
  | texto (s : String)
deriving DecidableEq, Repr

/-- `Decimal.quantize(Decimal('0.01'), rounding=ROUND_HALF_UP)`: round to
two fractional digits, ties away from zero. -/
def quantize2 (q : Rat) : Rat :=
  if 0 ≤ q then ((⌊q * 100 + 1 / 2⌋ : Int) : Rat) / 100
  else -(((⌊-(q * 100) + 1 / 2⌋ : Int) : Rat) / 100)

/-- Python `str.strip()` on a character list. -/
def trimChars (l : List Char) : List Char :=
  (((l.dropWhile Char.isWhitespace).reverse.dropWhile
    Char.isWhitespace).reverse)

/-- `str.replace('R$', '')`: drop the non-overlapping occurrences of the
two-character substring, left to right. -/
def removeRS : List Char → List Char
  | 'R' :: '$' :: rest => removeRS rest
  | c :: rest => c :: removeRS rest
  | [] => []

/-- `str.replace('$', '')`. -/
def removeCifrao (l : List Char) : List Char :=
  l.filter (fun c => c ≠ '$')

/-- Python `str.rfind(ch)`: index of the last occurrence, `-1` when
absent. -/
def rfind (c : Char) : List Char → Int
  | [] => -1
  | a :: l =>
    let r := rfind c l
    if r ≥ 0 then r + 1 else if a = c then 0 else -1

/-- The cleaned text of lines 179: strip, drop `R$` and `$`, strip. -/
def limparTexto (l : List Char) : List Char :=
  trimChars (removeCifrao (removeRS (trimChars l)))

/-- The separator normalization of lines 181-190: with both separators
present, compare the positions of the last comma and the last dot; comma
further right ⇒ Brazilian convention (drop dots, comma becomes decimal
dot), otherwise international (drop commas); with only commas, commas
become dots; otherwise unchanged. -/
def normalizarSeparadores (l : List Char) : List Char :=
  if l.contains ',' && l.contains '.' then
    if rfind ',' l > rfind '.' l then
      (l.filter (fun c => c ≠ '.')).map (fun c => if c = ',' then '.' else c)
    else
      l.filter (fun c => c ≠ ',')
  else if l.contains ',' then
    l.map (fun c => if c = ',' then '.' else c)
  else l

/-- Value of a digit string. -/
def digitosParaNat (l : List Char) : Nat :=
  l.foldl (fun n c => 10 * n + (c.toNat - '0'.toNat)) 0

/-- The `Decimal(valor_str)` constructor on finite decimal literals:
optional sign, integer digits, optional fractional digits after one dot,
optional exponent; anything else (in particular any stray character) is
rejected — the `except` at line 194. -/
def parseDecimal (l : List Char) : Option Rat :=
  let (sinal, l1) : Rat × List Char :=
    match l with
    | '+' :: rest => (1, rest)
    | '-' :: rest => (-1, rest)
    | _ => (1, l)
  let intPart := l1.takeWhile Char.isDigit
  let l2 := l1.dropWhile Char.isDigit
  let (fracPart, l3) : List Char × List Char :=
    match l2 with
    | '.' :: rest => (rest.takeWhile Char.isDigit, rest.dropWhile Char.isDigit)
    | _ => ([], l2)
  if intPart.isEmpty && fracPart.isEmpty then none
  else
    let mantissa : Rat := (digitosParaNat intPart : Rat) +
      (digitosParaNat fracPart : Rat) / ((10 : Rat) ^ fracPart.length)
    match l3 with
    | [] => some (sinal * mantissa)
    | e :: rest =>
      if e = 'e' || e = 'E' then
        let (sinalExp, rest1) : Int × List Char :=
          match rest with
          | '+' :: r => (1, r)
          | '-' :: r => (-1, r)
          | _ => (1, rest)
        let expDigits := rest1.takeWhile Char.isDigit
        let rest2 := rest1.dropWhile Char.isDigit
        if expDigits.isEmpty || !rest2.isEmpty then none
        else some (sinal * mantissa *
          (10 : Rat) ^ (sinalExp * (digitosParaNat expDigits : Int)))
      else none

/-- The text path of `converter_valor` (lines 179-195): clean, normalize
separators, parse, quantize half-up; unparseable text yields `0`. -/
def converterTexto (l : List Char) : Rat :=
  match parseDecimal (normalizarSeparadores (limparTexto l)) with
  | some q => quantize2 q
  | none => 0

/-- `converter_valor` (lines 168-195). -/
def converter_valor : ValorCelula → Rat
  | .nenhum => 0
  | .decimalPuro q => q
  | .numero q => quantize2 q
  | .texto s => converterTexto s.data

/-! ## Concrete fixtures used to instantiate the theorems -/

/-- The source's configuration (lines 36-41), with the closing date as
day number 60 of an arbitrary epoch. -/
def exConfig : Config :=
  { CNPJ_EMPRESA := "17122471000175"
    DATA_FECHAMENTO := 60
    PERIODO_MAXIMO_DIAS := 60
    TOLERANCIA_VALOR := 101 / 100 }

/-- An individual row: one invoice reference, billed 500. -/
def exT1 : TransacaoOriginal :=
  { numeros_nfe := ["1001"]
    data_abastecimento := 0
    cnpj_posto := "11111111000111"
    cnpj_empresa := "17122471000175"
    valor_boleto := 500
    postergado := "Não"
    linha := 2
    texto_original := "NFe1001"
    eh_cancelamento := false
    eh_estorno := false }

/-- A combined row referencing two invoices, billed 300. -/
def exT2 : TransacaoOriginal :=
  { numeros_nfe := ["2002", "2001"]
    data_abastecimento := 0
    cnpj_posto := "11111111000111"
    cnpj_empresa := "17122471000175"
    valor_boleto := 300
    postergado := "Não"
    linha := 3
    texto_original := "NFe2002, NFe2001"
    eh_cancelamento := false
    eh_estorno := false }

/-- A cancellation row, billed 50. -/
def exT3 : TransacaoOriginal :=
  { numeros_nfe := []
    data_abastecimento := 0
    cnpj_posto := "11111111000111"
    cnpj_empresa := "17122471000175"
    valor_boleto := 50
    postergado := "Não"
    linha := 4
    texto_original := "Cancelado"
    eh_cancelamento := true
    eh_estorno := false }

/-- A reversal row, billed 20. -/
def exT4 : TransacaoOriginal :=
  { numeros_nfe := []
    data_abastecimento := 0
    cnpj_posto := "11111111000111"
    cnpj_empresa := "17122471000175"
    valor_boleto := 20
    postergado := "Não"
    linha := 5
    texto_original := "Estorno"
    eh_cancelamento := false
    eh_estorno := true }

/-- A combined row that also references invoice 1001, billed 111. -/
def exT5 : TransacaoOriginal :=
  { numeros_nfe := ["1001", "9999"]
    data_abastecimento := 0
    cnpj_posto := "11111111000111"
    cnpj_empresa := "17122471000175"
    valor_boleto := 111
    postergado := "Não"
    linha := 6
    texto_original := "NFe1001, NFe9999"
    eh_cancelamento := false
    eh_estorno := false }

/-- Transaction list exercising both grouping modes plus a cancellation
and a reversal. -/
def exTs : List TransacaoOriginal := [exT1, exT2, exT3, exT4, exT5]

/-- Invoice matching the individual group, value 500. -/
def exNFe1 : NFe :=
  { numero := "1001"
    data_emissao := 0
    cnpj_emitente := "11111111000111"
    cnpj_destinatario := "17122471000175"
    valor := 500
    xml_path := "1001.xml" }

/-- Invoice 2001, value 100. -/
def exNFe2 : NFe :=
  { numero := "2001"
    data_emissao := 0
    cnpj_emitente := "11111111000111"
    cnpj_destinatario := "17122471000175"
    valor := 100
    xml_path := "2001.xml" }

/-- Invoice whose value is exactly tolerance below the group value. -/
def exNFe4 : NFe :=
  { numero := "1001"
    data_emissao := 0
    cnpj_emitente := "11111111000111"
    cnpj_destinatario := "17122471000175"
    valor := 611 - 101 / 100
    xml_path := "1001b.xml" }

/-- A group with no matching invoice, 100 days before closing. -/
def exGrupoPerdido : GrupoNFe :=
  { numero_nfe := "7777"
    data_abastecimento := -40
    cnpj_posto := "11111111000111"
    cnpj_empresa := "17122471000175"
    valor_planilha := 250
    postergado := "Não"
    transacoes_individuais := [exT1]
    transacoes_agrupadas := []
    linhas := [2] }

/-- A group 61 days before closing (one past the grace period) whose
value matches its invoice exactly. -/
def exGrupoVelho : GrupoNFe :=
  { numero_nfe := "1001"
    data_abastecimento := -1
    cnpj_posto := "11111111000111"
    cnpj_empresa := "17122471000175"
    valor_planilha := 500
    postergado := "Não"
    transacoes_individuais := [exT1]
    transacoes_agrupadas := []
    linhas := [2] }

/-- The group of invoice 1001 built from `[exT1, exT5]`: one individual
contributor and one combined contributor. -/
def exG2 : GrupoNFe :=
  { numero_nfe := "1001"
    data_abastecimento := 0
    cnpj_posto := "11111111000111"
    cnpj_empresa := "17122471000175"
    valor_planilha := 500
    postergado := "Não"
    transacoes_individuais := [exT1]
    transacoes_agrupadas := [exT5]
    linhas := [2] }

/-- The combined-only group of invoice 2001 built from `[exT2]`: 2001 is
the lexicographic minimum of exT2's reference set, so it carries the
whole 300. -/
def exG3 : GrupoNFe :=
  { numero_nfe := "2001"
    data_abastecimento := 0
    cnpj_posto := "11111111000111"
    cnpj_empresa := "17122471000175"
    valor_planilha := 300
    postergado := "Não"
    transacoes_individuais := []
    transacoes_agrupadas := [exT2]
    linhas := [3] }

/-- A group on the closing boundary (exactly 60 days) whose value sits
exactly tolerance away from `exNFe4`. -/
def exG4 : GrupoNFe :=
  { numero_nfe := "1001"
    data_abastecimento := 0
    cnpj_posto := "11111111000111"
    cnpj_empresa := "17122471000175"
    valor_planilha := 611
    postergado := "Não"
    transacoes_individuais := [exT1]
    transacoes_agrupadas := []
    linhas := [2] }

/-- A divergent-combined result originating from row 3 (invoice 2001). -/
def exR1 : Resultado :=
  { tipo := .DIVERGENTE_AGRUPADA
    grupo := exG3
    nfe := some exNFe2
    diferenca := 200
    dias_postergados := 60
    motivo := "Divergência (só agrupado)" }

/-- A second divergent-combined result from the same row 3
(invoice 2002, allocated 0). -/
def exR2 : Resultado :=
  { tipo := .DIVERGENTE_AGRUPADA
    grupo :=
      { numero_nfe := "2002"
        data_abastecimento := 0
        cnpj_posto := "11111111000111"
        cnpj_empresa := "17122471000175"
        valor_planilha := 0
        postergado := "Não"
        transacoes_individuais := []
        transacoes_agrupadas := [exT2]
        linhas := [3] }
    nfe := none
    diferenca := 150
    dias_postergados := 60
    motivo := "Divergência (só agrupado)" }

/-- A divergent-combined result originating from row 6. -/
def exR3 : Resultado :=
  { tipo := .DIVERGENTE_AGRUPADA
    grupo :=
      { numero_nfe := "9999"
        data_abastecimento := 0
        cnpj_posto := "11111111000111"
        cnpj_empresa := "17122471000175"
        valor_planilha := 0
        postergado := "Não"
        transacoes_individuais := []
        transacoes_agrupadas := [exT5]
        linhas := [6] }
    nfe := none
    diferenca := 111
    dias_postergados := 60
    motivo := "Divergência (só agrupado)" }

/-- Three divergent-combined results: two sharing origin row 3, one from
row 6. -/
def exRs : List Resultado := [exR1, exR2, exR3]

/-- Transactions for the mixed individual/combined group of invoice
1001. -/
def exTsC2 : List TransacaoOriginal := [exT1, exT5]

/-!
## Theorems

One theorem per claim of the specification, each instantiated on a
concrete fixture when it carries hypotheses.
-/

/-- **C9**: for every transaction list, the reversal total returned by
`calcular_cancelamentos_estornos` is non-positive: the sum of
reversal-flagged billed values is negated only when strictly positive, a
non-positive sum is returned unchanged (never double-inverted), and the
cancellation total is the plain sum without sign adjustment. -/
theorem claim_C9 (ts : List TransacaoOriginal) :
    (calcular_cancelamentos_estornos ts).2 ≤ 0 ∧
    (((ts.filter (·.eh_estorno)).map (·.valor_boleto)).sum ≤ 0 →
      (calcular_cancelamentos_estornos ts).2 =
        ((ts.filter (·.eh_estorno)).map (·.valor_boleto)).sum) ∧
    (0 < ((ts.filter (·.eh_estorno)).map (·.valor_boleto)).sum →
      (calcular_cancelamentos_estornos ts).2 =
        -((ts.filter (·.eh_estorno)).map (·.valor_boleto)).sum) ∧
    (calcular_cancelamentos_estornos ts).1 =
      ((ts.filter (·.eh_cancelamento)).map (·.valor_boleto)).sum := by
  refine ⟨?_, ?_, ?_, rfl⟩
  · show (if _ > (0 : Rat) then _ else _) ≤ 0
    split_ifs with h
    · linarith
    · exact le_of_not_lt h
  · intro hle
    show (if _ > (0 : Rat) then _ else _) = _
    rw [if_neg (not_lt.mpr hle)]
  · intro hpos
    show (if _ > (0 : Rat) then _ else _) = _
    rw [if_pos hpos]

/-- Witness for C9 on the fixture list: its reversal sum is 20, so the
returned reversal total is −20. -/
theorem claim_C9_witness :
    (calcular_cancelamentos_estornos exTs).2 =
      -((exTs.filter (·.eh_estorno)).map (·.valor_boleto)).sum ∧
    (calcular_cancelamentos_estornos exTs).2 ≤ 0 :=
  ⟨(claim_C9 exTs).2.2.1
      (by simp [exTs, exT1, exT2, exT3, exT4, exT5]),
    (claim_C9 exTs).1⟩

/-- **C5**: a group whose invoice number is absent from the index is
always classified NOT_FOUND (never an error, never STALE — no condition
on the deferred days), with recorded difference equal to the group's
allocated value and no matched invoice. -/
theorem claim_C5 (grupo : GrupoNFe) (nfes_index : String → Option NFe)
    (config : Config) (h : nfes_index grupo.numero_nfe = none) :
    (confrontar_grupo grupo nfes_index config).tipo = .NAO_ENCONTRADA ∧
    (confrontar_grupo grupo nfes_index config).diferenca =
      grupo.valor_planilha ∧
    (confrontar_grupo grupo nfes_index config).nfe = none := by
  unfold confrontar_grupo
  rw [h]
  exact ⟨rfl, rfl, rfl⟩

/-- Witness for C5: a group 100 days before closing (beyond the 60-day
grace period) with no invoice in the index still comes out NOT_FOUND. -/
theorem claim_C5_witness :
    calcular_dias_postergados exGrupoPerdido.data_abastecimento
      exConfig.DATA_FECHAMENTO = 100 ∧
    exConfig.PERIODO_MAXIMO_DIAS = 60 ∧
    ((confrontar_grupo exGrupoPerdido (nfesIndex [exNFe1, exNFe2])
        exConfig).tipo = .NAO_ENCONTRADA ∧
      (confrontar_grupo exGrupoPerdido (nfesIndex [exNFe1, exNFe2])
        exConfig).diferenca = exGrupoPerdido.valor_planilha ∧
      (confrontar_grupo exGrupoPerdido (nfesIndex [exNFe1, exNFe2])
        exConfig).nfe = none) :=
  ⟨by decide, by decide,
    claim_C5 exGrupoPerdido (nfesIndex [exNFe1, exNFe2]) exConfig (by rfl)⟩

/-- **C4**: with a matching invoice, the tolerance boundary is non-strict
(difference exactly equal to the tolerance classifies EXACT) and the
grace boundary is strict (deferred days equal to the grace period never
yield STALE; grace period + 1 or more always does, regardless of the
value difference). -/
theorem claim_C4 (grupo : GrupoNFe) (nfes_index : String → Option NFe)
    (config : Config) (nfe : NFe)
    (h : nfes_index grupo.numero_nfe = some nfe) :
    (calcular_dias_postergados grupo.data_abastecimento
        config.DATA_FECHAMENTO = config.PERIODO_MAXIMO_DIAS →
      (confrontar_grupo grupo nfes_index config).tipo ≠ .DESCONSIDERADA ∧
      (|grupo.valor_planilha - nfe.valor| = config.TOLERANCIA_VALOR →
        (confrontar_grupo grupo nfes_index config).tipo = .IDENTICA)) ∧
    (config.PERIODO_MAXIMO_DIAS + 1 ≤
        calcular_dias_postergados grupo.data_abastecimento
          config.DATA_FECHAMENTO →
      (confrontar_grupo grupo nfes_index config).tipo = .DESCONSIDERADA) := by
  unfold confrontar_grupo
  rw [h]
  dsimp only
  constructor
  · intro hd
    rw [hd, if_neg (lt_irrefl _)]
    constructor
    · split_ifs <;> simp
    · intro htol
      rw [if_pos (le_of_eq htol)]
  · intro hd
    rw [if_pos (by omega)]

/-- Witness for C4: on the 60th day (the grace boundary) a difference of
exactly 1.01 (the tolerance) is EXACT; on the 61st day a perfect value
match is still STALE. -/
theorem claim_C4_witness :
    (confrontar_grupo exG4 (nfesIndex [exNFe4]) exConfig).tipo =
      .IDENTICA ∧
    (confrontar_grupo exGrupoVelho (nfesIndex [exNFe1]) exConfig).tipo =
      .DESCONSIDERADA :=
  ⟨((claim_C4 exG4 (nfesIndex [exNFe4]) exConfig exNFe4 (by rfl)).1
      (by decide)).2
      (by show |(611 : Rat) - (611 - 101 / 100)| = 101 / 100
          rw [show (611 : Rat) - (611 - 101 / 100) = 101 / 100 by ring]
          rw [abs_of_pos (by norm_num)]),
    (claim_C4 exGrupoVelho (nfesIndex [exNFe1]) exConfig exNFe1
      (by rfl)).2 (by decide)⟩

/-- **C2**: in a group with at least one individual contributor, the
allocated value is exactly the sum of the individual contributors'
billed values; the combined contributors to the same number are recorded
in the group (the full combined-contributor list) but never added. -/
theorem claim_C2 (ts : List TransacaoOriginal) (numero : String)
    (g : GrupoNFe) (hg : grupoDe ts numero = some g)
    (hind : g.transacoes_individuais ≠ []) :
    g.valor_planilha =
      ((g.transacoes_individuais.map (·.valor_boleto)).sum) ∧
    g.transacoes_agrupadas = agrupadasDe ts numero := by
  unfold grupoDe at hg
  cases hI : individuaisDe ts numero with
  | nil =>
    cases hA : agrupadasDe ts numero with
    | nil => rw [hI, hA] at hg; exact absurd hg (by simp)
    | cons a rest =>
      rw [hI, hA] at hg
      simp only [Option.some.injEq] at hg
      subst hg
      simp at hind
  | cons i rest =>
    rw [hI] at hg
    simp only [Option.some.injEq] at hg
    subst hg
    exact ⟨rfl, rfl⟩

/-- Witness for C2: for invoice 1001 of `exTsC2` (one individual row
billed 500, one combined row billed 111) the allocated value is the
individual sum alone while the combined row stays recorded. -/
theorem claim_C2_witness :
    exG2.valor_planilha =
      ((exG2.transacoes_individuais.map (·.valor_boleto)).sum) ∧
    exG2.transacoes_agrupadas = agrupadasDe exTsC2 "1001" :=
  claim_C2 exTsC2 "1001" exG2
    (by simp [grupoDe, individuaisDe, agrupadasDe, contribui,
      TransacaoOriginal.eh_agrupamento, exTsC2, exT1, exT5, exG2,
      somaValores])
    (by simp [exG2])

/-- **C10**: when a group has at least one individual contributor, its
`linhas` field lists exactly the individual contributors' source rows —
the combined contributors' rows are omitted although those transactions
are recorded in the combined list; only a group with no individual
contributor lists the combined contributors' rows. -/
theorem claim_C10 (ts : List TransacaoOriginal) (numero : String)
    (g : GrupoNFe) (hg : grupoDe ts numero = some g) :
    (g.transacoes_individuais ≠ [] →
      g.linhas = g.transacoes_individuais.map (·.linha) ∧
      g.transacoes_agrupadas = agrupadasDe ts numero) ∧
    (g.transacoes_individuais = [] →
      g.linhas = g.transacoes_agrupadas.map (·.linha)) := by
  unfold grupoDe at hg
  cases hI : individuaisDe ts numero with
  | nil =>
    cases hA : agrupadasDe ts numero with
    | nil => rw [hI, hA] at hg; exact absurd hg (by simp)
    | cons a rest =>
      rw [hI, hA] at hg
      simp only [Option.some.injEq] at hg
      subst hg
      exact ⟨fun h => absurd rfl h, fun _ => rfl⟩
  | cons i rest =>
    rw [hI] at hg
    simp only [Option.some.injEq] at hg
    subst hg
    exact ⟨fun _ => ⟨rfl, rfl⟩, fun h => absurd h (by simp)⟩

/-- Witness for C10: the 1001 group of `exTsC2` lists only row 2 (the
individual contributor) although the combined row 6 is recorded. -/
theorem claim_C10_witness :
    exG2.linhas = exG2.transacoes_individuais.map (·.linha) ∧
    exG2.transacoes_agrupadas = agrupadasDe exTsC2 "1001" :=
  (claim_C10 exTsC2 "1001" exG2
      (by simp [grupoDe, individuaisDe, agrupadasDe, contribui,
        TransacaoOriginal.eh_agrupamento, exTsC2, exT1, exT5, exG2,
        somaValores])).1
    (by simp [exG2])

/-- Bridging lemma: the head of Python's `sorted` list is `n` exactly
when `n` is the lexicographic minimum of the list. -/
theorem head_numerosNaOrdem_iff (l : List String) (n : String) :
    (numerosNaOrdem l).head? = some n ↔ n ∈ l ∧ ∀ x ∈ l, n ≤ x := by
  unfold numerosNaOrdem
  have hperm := List.perm_insertionSort (fun a b => a ≤ b) l
  have hsorted := List.sorted_insertionSort (fun a b => a ≤ b) l
  constructor
  · intro h
    obtain ⟨t, ht⟩ : ∃ t, l.insertionSort (fun a b => a ≤ b) = n :: t := by
      cases hs : l.insertionSort (fun a b => a ≤ b) with
      | nil => rw [hs] at h; simp at h
      | cons a t =>
        rw [hs] at h
        simp only [List.head?_cons, Option.some.injEq] at h
        exact ⟨t, by rw [h]⟩
    rw [ht] at hperm hsorted
    refine ⟨hperm.mem_iff.mp (by simp), fun x hx => ?_⟩
    rcases List.mem_cons.mp (hperm.mem_iff.mpr hx) with h1 | h1
    · exact le_of_eq h1.symm
    · exact (List.sorted_cons.mp hsorted).1 x h1
  · rintro ⟨hmem, hmin⟩
    cases hs : l.insertionSort (fun a b => a ≤ b) with
    | nil =>
      rw [hs] at hperm
      exact absurd (hperm.symm.mem_iff.mp hmem) (by simp)
    | cons a t =>
      rw [hs] at hperm hsorted
      have ha : a ∈ l := hperm.mem_iff.mp (by simp)
      have h2 : a ≤ n := by
        rcases List.mem_cons.mp (hperm.mem_iff.mpr hmem) with h1 | h1
        · exact le_of_eq h1.symm
        · exact (List.sorted_cons.mp hsorted).1 n h1
      have : a = n := le_antisymm h2 (hmin a ha)
      rw [this]
      rfl

/-- **C3**: in a combined-only group, the allocated value is the sum of
all combined contributors' billed values when the invoice number is the
lexicographic minimum of the first combined contributor's reference set,
and zero otherwise; with positive billed values the allocated value is
therefore nonzero exactly on the lexicographic minimum. -/
theorem claim_C3 (ts : List TransacaoOriginal) (numero : String)
    (g : GrupoNFe) (hg : grupoDe ts numero = some g)
    (hind : g.transacoes_individuais = []) :
    ∃ a rest, g.transacoes_agrupadas = a :: rest ∧
      g.valor_planilha =
        (if numero ∈ a.numeros_nfe ∧ ∀ x ∈ a.numeros_nfe, numero ≤ x
          then (((a :: rest).map (·.valor_boleto)).sum : Rat) else 0) ∧
      ((∀ t ∈ (a :: rest : List TransacaoOriginal), 0 < t.valor_boleto) →
        (g.valor_planilha ≠ 0 ↔
          numero ∈ a.numeros_nfe ∧ ∀ x ∈ a.numeros_nfe, numero ≤ x)) := by
  unfold grupoDe at hg
  cases hI : individuaisDe ts numero with
  | cons i rest =>
    rw [hI] at hg
    simp only [Option.some.injEq] at hg
    subst hg
    simp at hind
  | nil =>
    cases hA : agrupadasDe ts numero with
    | nil => rw [hI, hA] at hg; exact absurd hg (by simp)
    | cons a rest =>
      rw [hI, hA] at hg
      simp only [Option.some.injEq] at hg
      subst hg
      refine ⟨a, rest, rfl, ?_, ?_⟩
      · show (if (numerosNaOrdem a.numeros_nfe).head? = some numero
            then somaValores (a :: rest) else 0) = _
        by_cases hc : numero ∈ a.numeros_nfe ∧
            ∀ x ∈ a.numeros_nfe, numero ≤ x
        · rw [if_pos ((head_numerosNaOrdem_iff _ _).mpr hc), if_pos hc]
          rfl
        · rw [if_neg (fun h => hc ((head_numerosNaOrdem_iff _ _).mp h)),
            if_neg hc]
      · intro hpos
        show (if (numerosNaOrdem a.numeros_nfe).head? = some numero
            then somaValores (a :: rest) else 0) ≠ 0 ↔ _
        by_cases hc : numero ∈ a.numeros_nfe ∧
            ∀ x ∈ a.numeros_nfe, numero ≤ x
        · rw [if_pos ((head_numerosNaOrdem_iff _ _).mpr hc)]
          refine ⟨fun _ => hc, fun _ => ?_⟩
          have : (0 : Rat) <
              (((a :: rest).map (·.valor_boleto)).sum : Rat) :=
            List.sum_pos _
              (by rintro x hx
                  obtain ⟨t, ht, rfl⟩ := List.mem_map.mp hx
                  exact hpos t ht)
              (by simp)
          exact ne_of_gt this
        · rw [if_neg (fun h => hc ((head_numerosNaOrdem_iff _ _).mp h))]
          exact ⟨fun h => absurd rfl h, fun h => absurd h hc⟩

/-- Witness for C3: invoice 2001 is the lexicographic minimum of exT2's
reference set `["2002", "2001"]`, so its group carries the whole 300. -/
theorem claim_C3_witness :
    ∃ a rest, exG3.transacoes_agrupadas = a :: rest ∧
      exG3.valor_planilha =
        (if "2001" ∈ a.numeros_nfe ∧ ∀ x ∈ a.numeros_nfe, "2001" ≤ x
          then (((a :: rest).map (·.valor_boleto)).sum : Rat) else 0) ∧
      ((∀ t ∈ (a :: rest : List TransacaoOriginal), 0 < t.valor_boleto) →
        (exG3.valor_planilha ≠ 0 ↔
          "2001" ∈ a.numeros_nfe ∧ ∀ x ∈ a.numeros_nfe, "2001" ≤ x)) :=
  claim_C3 [exT2] "2001" exG3
    (by have hle : ¬ ("2002" : String) ≤ "2001" := by
          rw [String.le_iff_toList_le]; decide
        have hsort : numerosNaOrdem ["2002", "2001"] = ["2001", "2002"] := by
          simp [numerosNaOrdem, List.insertionSort, List.orderedInsert, hle]
        simp [grupoDe, individuaisDe, agrupadasDe, contribui,
          TransacaoOriginal.eh_agrupamento, exT2, exG3, somaValores, hsort])
    (by simp [exG3])

/-- Filtering a result list by each of the five tags accounts for every
element exactly once. -/
theorem length_filter_tipo_sum (l : List Resultado) :
    (l.filter (fun r => r.tipo = TipoResultado.IDENTICA)).length +
    (l.filter (fun r => r.tipo = TipoResultado.DIVERGENTE)).length +
    (l.filter (fun r => r.tipo = TipoResultado.DIVERGENTE_AGRUPADA)).length +
    (l.filter (fun r => r.tipo = TipoResultado.NAO_ENCONTRADA)).length +
    (l.filter (fun r => r.tipo = TipoResultado.DESCONSIDERADA)).length =
    l.length := by
  induction l with
  | nil => rfl
  | cons r l ih =>
    cases h : r.tipo <;>
      simp [List.filter_cons, h] <;> omega

/-- **C7**: `processar_confrontamento` partitions the input groups:
every group contributes exactly one result, each result lands in exactly
the bucket of its tag, distinct buckets are disjoint, and the five
bucket sizes add up to the number of groups (no omission). -/
theorem claim_C7 (grupos : List GrupoNFe) (nfes : List NFe)
    (config : Config) :
    ((grupos.map (fun g => confrontar_grupo g (nfesIndex nfes)
        config)).length = grupos.length) ∧
    (∀ t r, r ∈ processar_confrontamento grupos nfes config t ↔
      (r ∈ grupos.map (fun g => confrontar_grupo g (nfesIndex nfes) config) ∧
        r.tipo = t)) ∧
    (∀ t t', t ≠ t' → ∀ r,
      r ∈ processar_confrontamento grupos nfes config t →
      r ∉ processar_confrontamento grupos nfes config t') ∧
    ((processar_confrontamento grupos nfes config .IDENTICA).length +
      (processar_confrontamento grupos nfes config .DIVERGENTE).length +
      (processar_confrontamento grupos nfes config
        .DIVERGENTE_AGRUPADA).length +
      (processar_confrontamento grupos nfes config .NAO_ENCONTRADA).length +
      (processar_confrontamento grupos nfes config .DESCONSIDERADA).length =
      grupos.length) := by
  have hmem : ∀ t r, r ∈ processar_confrontamento grupos nfes config t ↔
      (r ∈ grupos.map (fun g => confrontar_grupo g (nfesIndex nfes) config) ∧
        r.tipo = t) := by
    intro t r
    simp [processar_confrontamento, List.mem_filter]
  refine ⟨List.length_map _ _, hmem, ?_, ?_⟩
  · intro t t' hne r hrt hrt'
    exact hne (((hmem t r).mp hrt).2.symm.trans ((hmem t' r).mp hrt').2)
  · have h := length_filter_tipo_sum
      (grupos.map (fun g => confrontar_grupo g (nfesIndex nfes) config))
    simpa [processar_confrontamento] using h

/-- A group classified STALE always carries its matched invoice: the
no-match branch classifies NOT_FOUND, every other branch stores
`some nfe`. -/
theorem nfe_isSome_of_desconsiderada (g : GrupoNFe)
    (idx : String → Option NFe) (config : Config)
    (h : (confrontar_grupo g idx config).tipo =
      TipoResultado.DESCONSIDERADA) :
    (confrontar_grupo g idx config).nfe.isSome := by
  unfold confrontar_grupo at h ⊢
  cases hidx : idx g.numero_nfe with
  | none => rw [hidx] at h; exact absurd h (by simp)
  | some nfe =>
    dsimp only
    split_ifs <;> rfl

/-- **C1**: over the full pipeline the summary satisfies the stated
arithmetic: EXACT / DIVERGENT_COMBINED / DIVERGENT / NOT_FOUND totals
sum the groups' allocated values, the STALE total sums the matched
invoices' values (every STALE result has one),
`total = exact + divergent_combined + divergent + stale − not_found`,
`payable = total − stale`, and the validation delta is the absolute
difference between payable and the declared total — the sum of the
billed values of all ingested transactions. -/
theorem claim_C1 (ts : List TransacaoOriginal) (nfes : List NFe)
    (config : Config) (cancelamento estorno : Rat) :
    let resultados := processar_confrontamento (valoresGrupos ts) nfes config
    let resumo := gerar_resumo resultados (valorTotalBoleto ts)
      cancelamento estorno
    resumo.identicas =
      ((resultados .IDENTICA).map (·.grupo.valor_planilha)).sum ∧
    resumo.agrupadas =
      ((resultados .DIVERGENTE_AGRUPADA).map (·.grupo.valor_planilha)).sum ∧
    resumo.divergentes =
      ((resultados .DIVERGENTE).map (·.grupo.valor_planilha)).sum ∧
    resumo.desconsideradas =
      (((resultados .DESCONSIDERADA).filterMap (·.nfe)).map (·.valor)).sum ∧
    (∀ r ∈ resultados .DESCONSIDERADA, r.nfe.isSome) ∧
    resumo.nao_encontradas =
      ((resultados .NAO_ENCONTRADA).map (·.grupo.valor_planilha)).sum ∧
    resumo.total = resumo.identicas + resumo.agrupadas + resumo.divergentes +
      resumo.desconsideradas - resumo.nao_encontradas ∧
    resumo.valor_a_pagar = resumo.total - resumo.desconsideradas ∧
    resumo.diferenca_validacao =
      |resumo.valor_a_pagar - valorTotalBoleto ts| ∧
    resumo.valor_do_boleto = valorTotalBoleto ts := by
  intro resultados resumo
  refine ⟨rfl, rfl, rfl, rfl, ?_, rfl, rfl, rfl, rfl, rfl⟩
  intro r hr
  have hr' := List.mem_filter.mp hr
  obtain ⟨g, -, rfl⟩ := List.mem_map.mp hr'.1
  exact nfe_isSome_of_desconsiderada g (nfesIndex nfes) config
    (by simpa using hr'.2)

/-- Witness for C7 on a two-group fixture: the five bucket sizes add up
to the number of input groups. -/
theorem claim_C7_witness :
    (processar_confrontamento [exG4, exGrupoPerdido] [exNFe4] exConfig
        .IDENTICA).length +
      (processar_confrontamento [exG4, exGrupoPerdido] [exNFe4] exConfig
        .DIVERGENTE).length +
      (processar_confrontamento [exG4, exGrupoPerdido] [exNFe4] exConfig
        .DIVERGENTE_AGRUPADA).length +
      (processar_confrontamento [exG4, exGrupoPerdido] [exNFe4] exConfig
        .NAO_ENCONTRADA).length +
      (processar_confrontamento [exG4, exGrupoPerdido] [exNFe4] exConfig
        .DESCONSIDERADA).length =
      ([exG4, exGrupoPerdido] : List GrupoNFe).length :=
  (claim_C7 [exG4, exGrupoPerdido] [exNFe4] exConfig).2.2.2

/-- Witness for C1 on the fixture pipeline: the payable amount equals
the grand total minus the STALE total. -/
theorem claim_C1_witness :
    (gerar_resumo (processar_confrontamento (valoresGrupos exTs)
        [exNFe1, exNFe2] exConfig) (valorTotalBoleto exTs)
        50 (-20)).valor_a_pagar =
      (gerar_resumo (processar_confrontamento (valoresGrupos exTs)
        [exNFe1, exNFe2] exConfig) (valorTotalBoleto exTs)
        50 (-20)).total -
      (gerar_resumo (processar_confrontamento (valoresGrupos exTs)
        [exNFe1, exNFe2] exConfig) (valorTotalBoleto exTs)
        50 (-20)).desconsideradas :=
  (claim_C1 exTs [exNFe1, exNFe2] exConfig 50 (-20)).2.2.2.2.2.2.2.1

/-- Membership is invariant under first-occurrence deduplication. -/
theorem mem_dedupFirst {x : Nat} : ∀ {l : List Nat},
    x ∈ dedupFirst l ↔ x ∈ l := by
  intro l
  induction l using dedupFirst.induct with
  | case1 => simp [dedupFirst]
  | case2 a l ih =>
    rw [dedupFirst]
    by_cases hxa : x = a
    · subst hxa
      simp
    · simp only [List.mem_cons, ih, List.mem_filter, hxa, false_or]
      constructor
      · exact fun h => h.1
      · exact fun h => ⟨h, by simpa using hxa⟩

/-- First-occurrence deduplication yields a duplicate-free list. -/
theorem nodup_dedupFirst : ∀ {l : List Nat}, (dedupFirst l).Nodup := by
  intro l
  induction l using dedupFirst.induct with
  | case1 => simp [dedupFirst]
  | case2 a l ih =>
    rw [dedupFirst]
    refine List.nodup_cons.mpr ⟨fun ha => ?_, ih⟩
    have := List.mem_filter.mp (mem_dedupFirst.mp ha)
    simp at this

/-- Shifting `range'` by one. -/
theorem range'_map_succ (s n : Nat) :
    (List.range' s n).map (fun x => x + 1) = List.range' (s + 1) n := by
  induction n generalizing s with
  | zero => rfl
  | succ n ih => rw [List.range'_succ, List.range'_succ, List.map_cons, ih]

/-- On a duplicate-free list, mapping every element to one plus its own
index enumerates `1, 2, …, length` in list order. -/
theorem map_indexOf_succ_eq_range' : ∀ {L : List Nat}, L.Nodup →
    L.map (fun k => L.indexOf k + 1) = List.range' 1 L.length := by
  intro L h
  induction L with
  | nil => rfl
  | cons a t ih =>
    have ha : a ∉ t := (List.nodup_cons.mp h).1
    have ht : t.Nodup := (List.nodup_cons.mp h).2
    rw [List.map_cons, List.indexOf_cons_self]
    have hmap : t.map (fun k => (a :: t).indexOf k + 1) =
        (t.map (fun k => t.indexOf k + 1)).map (fun x => x + 1) := by
      rw [List.map_map]
      refine List.map_congr_left (fun k hk => ?_)
      have hka : a ≠ k := fun hak => ha (hak ▸ hk)
      simp only [Function.comp_apply]
      rw [List.indexOf_cons_ne _ hka]
    rw [hmap, ih ht, range'_map_succ, List.length_cons, List.range'_succ]

/-- **C6**: `detectar_grupos_divergentes_agrupadas` assigns every
DIVERGENT_COMBINED result (each has a combined contributor) exactly one
divergence-group id, bounded by the number of distinct origin rows; two
results share an id exactly when they share the source row of their
first combined contributor; every id from 1 to the number of distinct
keys is assigned; and the keys receive, in first-encounter order, the
dense ids `1, 2, …`. -/
theorem claim_C6 (rs : List Resultado)
    (hne : ∀ r ∈ rs, r.grupo.transacoes_agrupadas ≠ []) :
    (∀ r ∈ rs, ∃ i, grupoDivergenciaId rs r = some i ∧ 1 ≤ i ∧
      i ≤ (chavesDivergencia rs).length) ∧
    (∀ r1 ∈ rs, ∀ r2 ∈ rs,
      (grupoDivergenciaId rs r1 = grupoDivergenciaId rs r2 ↔
        chaveDivergencia r1 = chaveDivergencia r2)) ∧
    (∀ i, 1 ≤ i → i ≤ (chavesDivergencia rs).length →
      ∃ r ∈ rs, grupoDivergenciaId rs r = some i) ∧
    ((chavesDivergencia rs).map
      (fun k => (chavesDivergencia rs).indexOf k + 1) =
      List.range' 1 (chavesDivergencia rs).length) := by
  have hkey : ∀ r ∈ rs, ∃ k, chaveDivergencia r = some k := by
    intro r hr
    cases hl : r.grupo.transacoes_agrupadas with
    | nil => exact absurd hl (hne r hr)
    | cons a t => exact ⟨a.linha, by simp [chaveDivergencia, hl]⟩
  have hmemchaves : ∀ r ∈ rs, ∀ k, chaveDivergencia r = some k →
      k ∈ chavesDivergencia rs := by
    intro r hr k hk
    exact mem_dedupFirst.mpr (List.mem_filterMap.mpr ⟨r, hr, hk⟩)
  refine ⟨?_, ?_, ?_, map_indexOf_succ_eq_range' nodup_dedupFirst⟩
  · intro r hr
    obtain ⟨k, hk⟩ := hkey r hr
    refine ⟨(chavesDivergencia rs).indexOf k + 1, ?_, ?_, ?_⟩
    · simp [grupoDivergenciaId, hk]
    · omega
    · have := List.indexOf_lt_length.mpr (hmemchaves r hr k hk)
      omega
  · intro r1 hr1 r2 hr2
    obtain ⟨k1, hk1⟩ := hkey r1 hr1
    obtain ⟨k2, hk2⟩ := hkey r2 hr2
    simp only [grupoDivergenciaId, hk1, hk2, Option.map_some',
      Option.some.injEq]
    rw [Nat.add_right_cancel_iff]
    exact (List.indexOf_inj (hmemchaves r1 hr1 k1 hk1)
      (hmemchaves r2 hr2 k2 hk2))
  · intro i h1 h2
    have hlt : i - 1 < (chavesDivergencia rs).length := by omega
    set k := (chavesDivergencia rs).get ⟨i - 1, hlt⟩ with hkdef
    have hkmem : k ∈ chavesDivergencia rs := List.get_mem _ _ _
    have hkfm : k ∈ rs.filterMap chaveDivergencia :=
      mem_dedupFirst.mp hkmem
    obtain ⟨r, hr, hrk⟩ := List.mem_filterMap.mp hkfm
    refine ⟨r, hr, ?_⟩
    have hidx : (chavesDivergencia rs).indexOf k = i - 1 := by
      have := List.indexOf_getElem nodup_dedupFirst (i - 1) hlt
      simpa [hkdef] using this
    simp only [grupoDivergenciaId, hrk, Option.map_some', hidx,
      Option.some.injEq]
    omega

/-- Witness for C6 on the three-result fixture (origin rows 3, 3 and 6):
the first result gets an id within bounds, and it shares its id with the
second result exactly because both originate from row 3. -/
theorem claim_C6_witness :
    (∃ i, grupoDivergenciaId exRs exR1 = some i ∧ 1 ≤ i ∧
      i ≤ (chavesDivergencia exRs).length) ∧
    (grupoDivergenciaId exRs exR1 = grupoDivergenciaId exRs exR2 ↔
      chaveDivergencia exR1 = chaveDivergencia exR2) := by
  have hne : ∀ r ∈ exRs, r.grupo.transacoes_agrupadas ≠ [] := by
    intro r hr
    simp only [exRs, List.mem_cons, List.not_mem_nil, or_false] at hr
    rcases hr with rfl | rfl | rfl <;> simp [exR1, exR2, exR3, exG3]
  exact ⟨(claim_C6 exRs hne).1 exR1 (by simp [exRs]),
    (claim_C6 exRs hne).2.1 exR1 (by simp [exRs]) exR2 (by simp [exRs])⟩

/-- **C8**: the currency parser accepts native numeric values directly
and rounds them half-up to two fractional digits; on text containing
both a comma and a dot it decides the Brazilian versus international
convention by comparing the positions of the last comma and the last
dot, normalizes to dot-decimal accordingly and parses; and unparseable
text yields zero (the function is total — nothing is raised). -/
theorem claim_C8 :
    (∀ q : Rat, converter_valor (.numero q) = quantize2 q) ∧
    (∀ s : String, ',' ∈ limparTexto s.data → '.' ∈ limparTexto s.data →
      converter_valor (.texto s) =
        match parseDecimal
            (if rfind ',' (limparTexto s.data) >
                rfind '.' (limparTexto s.data) then
              ((limparTexto s.data).filter (fun c => c ≠ '.')).map
                (fun c => if c = ',' then '.' else c)
            else
              (limparTexto s.data).filter (fun c => c ≠ ',')) with
          | some q => quantize2 q
          | none => 0) ∧
    (∀ s : String,
      parseDecimal (normalizarSeparadores (limparTexto s.data)) = none →
      converter_valor (.texto s) = 0) := by
  refine ⟨fun q => rfl, ?_, ?_⟩
  · intro s h1 h2
    show converterTexto s.data = _
    unfold converterTexto normalizarSeparadores
    rw [if_pos (by
      simp [List.contains, List.elem_eq_true_of_mem h1,
        List.elem_eq_true_of_mem h2]
      exact ⟨h1, h2⟩)]
  · intro s h
    show converterTexto s.data = 0
    unfold converterTexto
    rw [h]

/-- Witness for C8: `"R$ 1.234,56"` contains both separators (with the
comma last, Brazilian convention), and `"abc"` is unparseable and yields
zero. -/
theorem claim_C8_witness :
    (converter_valor (.texto "R$ 1.234,56") =
      match parseDecimal
          (if rfind ',' (limparTexto ("R$ 1.234,56".data)) >
              rfind '.' (limparTexto ("R$ 1.234,56".data)) then
            ((limparTexto ("R$ 1.234,56".data)).filter
              (fun c => c ≠ '.')).map (fun c => if c = ',' then '.' else c)
          else
            (limparTexto ("R$ 1.234,56".data)).filter (fun c => c ≠ ',')) with
        | some q => quantize2 q
        | none => 0) ∧
    converter_valor (.texto "abc") = 0 :=
  ⟨claim_C8.2.1 "R$ 1.234,56" (by decide) (by decide),
    claim_C8.2.2 "abc" (by decide)⟩

end NFeValidacao
